import Mathlib

/-!
Verification development for the cert-agent certificate lifecycle engine.

The definitions below are a shallow embedding of the store-facing parts of
the Rust sources:

* `src/redis_client.rs` — `CertificateRecord`, `store_certificate`,
  `get_certificate`, `update_certificate_status`, `list_certificates`,
  `get_expiring_certificates`, `delete_certificate`, `publish_event`.
* `src/certificate.rs` — `CertificateRequest`, `issue_certificate`,
  `renew_certificate`, `revoke_certificate`, and the subject-name builder.
* `src/grpc.rs` — the renew and status RPC handlers and their error mapping.
* `src/watcher.rs` — the per-certificate renewal subtask,
  `check_certificate_health`, `cleanup_expired_certificates`.

Modelling conventions:

* The Redis store is a state record: an association list from certificate id
  to the stored blob (key `cert:<id>`), the `certs:all` index set, and the
  list of messages published on the `cert_events` channel.  Redis SETEX
  attaches a TTL to the blob and Redis SET discards any existing TTL, so a
  blob carries an `Option Nat` TTL.
* Backend failures are injected through a `FailureSpec` oracle covering the
  three failure points the claims are about: the SETEX in
  `store_certificate`, the SADD in `store_certificate`, and PUBLISH (by
  event name).  All other commands are modelled as succeeding; the injected
  error payload strings are oracle labels, not Redis messages.
* Wall-clock reads (`Utc::now()`) become explicit integer parameters, one
  per read, in source order: `issue_certificate` samples the clock once for
  `expires_at` (line 238 of `src/certificate.rs`) and again, later, for
  `issued_at` (line 246), hence two parameters `now1 ≤ now2`.
* Fresh UUIDs (`Uuid::new_v4`) become explicit id parameters; freshness of
  a generated id is a hypothesis where a theorem needs it.
* Cryptography, PEM encoding and filesystem writes are outside the store
  model; the issued-certificate result keeps only the fields the claims
  mention (id, expiry, status).  The one modelled piece of the OpenSSL
  boundary is `append_entry_by_text`, whose DN size validation (rejecting
  empty values, and country codes of length other than 2) decides whether
  the subject-name construction succeeds or aborts.
-/

/-! ### Data model and operations (shallow embedding of the source) -/

/-- Embeds `CertificateRecord` from `src/redis_client.rs` (lines 12-22).
The `metadata` HashMap is modelled as an association list. -/
structure CertificateRecord where
  certificate_id : String
  common_name : String
  dns_names : List String
  ip_addresses : List String
  status : String
  expires_at : Int
  issued_at : Int
  metadata : List (String × String)
deriving DecidableEq

/-- A value stored under a `cert:<id>` key: the JSON-serialized record plus
the TTL currently attached to the key (`none` when the key has no TTL). -/
structure StoredValue where
  record : CertificateRecord
  ttl : Option Nat
deriving DecidableEq

/-- The observable Redis state: `cert:<id>` blobs as an association list
keyed by id, the `certs:all` index set, and the sequence of messages
published on the `cert_events` channel. -/
structure RedisState where
  certs : List (String × StoredValue)
  index : List String
  events : List String
deriving DecidableEq

/-- The empty store. -/
def emptyState : RedisState := { certs := [], index := [], events := [] }

/-- Failure-injection oracle for the store backend.  `setFails` makes the
SETEX in `store_certificate` fail, `saddFails` makes the subsequent SADD
fail, and a PUBLISH fails exactly when its event name is in `failEvents`. -/
structure FailureSpec where
  setFails : Bool
  saddFails : Bool
  failEvents : List String
deriving DecidableEq

/-- The oracle under which every backend command succeeds. -/
def noFail : FailureSpec := { setFails := false, saddFails := false, failEvents := [] }

/-- Embeds the constructors of `CertAgentError` (`src/error.rs`) that the
store-facing operations can produce. -/
inductive CertAgentError where
  | Certificate (msg : String)
  | Redis (msg : String)
  | OpenSsl (msg : String)
  | CertificateNotFound (certificate_id : String)
deriving DecidableEq

/-- The `Display` rendering of `CertAgentError` from the `thiserror`
attributes in `src/error.rs`. -/
def errorMessage : CertAgentError → String
  | .Certificate msg => "Certificate error: " ++ msg
  | .Redis msg => "Redis error: " ++ msg
  | .OpenSsl msg => "OpenSSL error: " ++ msg
  | .CertificateNotFound cid => "Certificate not found: " ++ cid

/-- The tonic `Status` codes used by the handlers in `src/grpc.rs`. -/
inductive GrpcStatus where
  | internal (msg : String)
  | notFound (msg : String)
deriving DecidableEq

/-- Redis GET on the `cert:` keyspace: first binding for the key wins. -/
def lookupKV : List (String × StoredValue) → String → Option StoredValue
  | [], _ => none
  | (k, v) :: t, key => if k = key then some v else lookupKV t key

/-- Redis SET/SETEX on the `cert:` keyspace: replace the binding for the
key if present, otherwise append a new binding. -/
def setKV : List (String × StoredValue) → String → StoredValue → List (String × StoredValue)
  | [], key, v => [(key, v)]
  | (k, w) :: t, key, v => if k = key then (key, v) :: t else (k, w) :: setKV t key v

/-- Redis DEL on the `cert:` keyspace: remove every binding for the key. -/
def eraseKV (l : List (String × StoredValue)) (key : String) : List (String × StoredValue) :=
  l.filter (fun p => p.1 != key)

/-- Redis SADD on the `certs:all` set: insert the id if absent. -/
def saddIndex (l : List String) (cid : String) : List String :=
  if cid ∈ l then l else l ++ [cid]

/-- The one-year expiry `store_certificate` passes to SETEX
(`365 * 24 * 60 * 60` seconds, line 50 of `src/redis_client.rs`). -/
def oneYearTTL : Nat := 365 * 24 * 60 * 60

/-- Embeds `RedisClient::publish_event` (lines 157-162): PUBLISH the string
`"<event>:<data>"` on `cert_events`; a backend failure is returned as a
`Redis` error (`?` propagation in the source). -/
def publish_event (fs : FailureSpec) (s : RedisState) (event data : String) :
    RedisState × Except CertAgentError Unit :=
  if event ∈ fs.failEvents then
    (s, .error (.Redis "PUBLISH failed"))
  else
    ({ s with events := s.events ++ [event ++ ":" ++ data] }, .ok ())

/-- Embeds `RedisClient::store_certificate` (lines 45-58): SETEX the record
under `cert:<id>` with the one-year TTL, then SADD the id into `certs:all`.
Each step propagates its backend error with `?`; a SADD failure leaves the
blob already written. -/
def store_certificate (fs : FailureSpec) (s : RedisState) (cert_record : CertificateRecord) :
    RedisState × Except CertAgentError Unit :=
  if fs.setFails then
    (s, .error (.Redis "SETEX failed"))
  else
    let blob : StoredValue := { record := cert_record, ttl := some oneYearTTL }
    let s1 : RedisState :=
      { s with certs := setKV s.certs cert_record.certificate_id blob }
    if fs.saddFails then
      (s1, .error (.Redis "SADD failed"))
    else
      ({ s1 with index := saddIndex s1.index cert_record.certificate_id }, .ok ())

/-- Embeds `RedisClient::get_certificate` (lines 60-74): GET `cert:<id>`
and deserialize, `none` when the key is absent. -/
def get_certificate (s : RedisState) (certificate_id : String) : Option CertificateRecord :=
  match lookupKV s.certs certificate_id with
  | none => none
  | some sv => some sv.record

/-- Embeds `RedisClient::update_certificate_status` (lines 76-94): GET the
record, and if present rewrite it with the new status using a plain SET
(line 89) — which, per Redis semantics, discards any TTL on the key.  A
missing key is a silent no-op. -/
def update_certificate_status (s : RedisState) (certificate_id status : String) :
    RedisState × Except CertAgentError Unit :=
  match lookupKV s.certs certificate_id with
  | none => (s, .ok ())
  | some sv =>
    let blob : StoredValue := { record := { sv.record with status := status }, ttl := none }
    ({ s with certs := setKV s.certs certificate_id blob }, .ok ())

/-- Embeds `RedisClient::list_certificates` (lines 96-122): SMEMBERS of
`certs:all`, GET each `cert:<id>`, silently skip ids whose key is absent,
and keep records matching the optional status filter. -/
def list_certificates (s : RedisState) (status_filter : Option String) :
    List CertificateRecord :=
  s.index.filterMap (fun cert_id =>
    match lookupKV s.certs cert_id with
    | none => none
    | some sv =>
      match status_filter with
      | some status => if sv.record.status = status then some sv.record else none
      | none => some sv.record)

/-- Embeds `RedisClient::get_expiring_certificates` (lines 124-138): list
the `active` records and keep those with
`0 < expires_at - now ≤ threshold_days * 24 * 60 * 60`.  The single
`Utc::now()` sample (line 127) is the parameter `now`. -/
def get_expiring_certificates (s : RedisState) (threshold_days : Nat) (now : Int) :
    List CertificateRecord :=
  let threshold_seconds : Int := (threshold_days : Int) * 24 * 60 * 60
  (list_certificates s (some "active")).filter (fun cert =>
    decide (0 < cert.expires_at - now ∧ cert.expires_at - now ≤ threshold_seconds))

/-- Embeds `RedisClient::delete_certificate` (lines 140-154): DEL
`cert:<id>` and SREM the id from `certs:all`. -/
def delete_certificate (s : RedisState) (certificate_id : String) : RedisState :=
  { s with certs := eraseKV s.certs certificate_id,
           index := s.index.filter (fun j => j != certificate_id) }

/-- Embeds `CertificateRequest` from `src/certificate.rs` (lines 26-38). -/
structure CertificateRequest where
  common_name : String
  dns_names : List String
  ip_addresses : List String
  validity_days : Nat
  organization : Option String
  organizational_unit : Option String
  country : Option String
  state : Option String
  locality : Option String
  metadata : List (String × String)
deriving DecidableEq

/-- Embeds `IssuedCertificate` from `src/certificate.rs` (lines 40-48),
restricted to the store-relevant fields; the three PEM fields are
cryptographic artifacts outside this model. -/
structure IssuedCertificate where
  certificate_id : String
  expires_at : Int
  status : String
deriving DecidableEq

/-- Embeds one `name.append_entry_by_text(key, value)?` call
(`src/certificate.rs` lines 158-174).  The rust-openssl binding calls
`X509_NAME_add_entry_by_txt`, whose `ASN1_mbstring_ncopy` enforces the
OpenSSL ASN1 string-table sizes for the attribute type: minimum 1 for CN,
O, OU, ST and L — so an empty value is rejected with `string too short` —
and exactly 2 for C (countryName).  A rejected value returns the
`ErrorStack` as the `OpenSsl` error kind, `?`-propagated by the caller; an
accepted value is appended to the builder.  (The table's large maxima, 64
or 128 characters, never matter to the claims and are not modelled.) -/
def append_entry_by_text (name : List (String × String)) (key value : String) :
    Except CertAgentError (List (String × String)) :=
  if key = "C" then
    if value.length < 2 then .error (.OpenSsl "string too short")
    else if 2 < value.length then .error (.OpenSsl "string too long")
    else .ok (name ++ [(key, value)])
  else
    if value.length = 0 then .error (.OpenSsl "string too short")
    else .ok (name ++ [(key, value)])

/-- The `if let Some(ref v) = request.field { name.append_entry_by_text(key, v)?; }`
pattern of `src/certificate.rs` lines 160-174: the append is attempted
exactly when the component is supplied, whatever its value, and its error
is propagated; an absent component is skipped. -/
def appendOptionalEntry (name : List (String × String)) (key : String) :
    Option String → Except CertAgentError (List (String × String))
  | some v => append_entry_by_text name key v
  | none => .ok name

/-- Embeds the subject-name construction of
`CertificateManager::issue_certificate` (lines 157-175): append CN, then
attempt O, OU, C, ST, L in order, each exactly when the request supplies
it (`if let Some`), with no emptiness check in the repository code — every
`append_entry_by_text` error (in particular OpenSSL rejecting an empty
value) aborts the construction via `?`. -/
def buildSubjectName (request : CertificateRequest) :
    Except CertAgentError (List (String × String)) :=
  match append_entry_by_text [] "CN" request.common_name with
  | .error e => .error e
  | .ok name1 =>
    match appendOptionalEntry name1 "O" request.organization with
    | .error e => .error e
    | .ok name2 =>
      match appendOptionalEntry name2 "OU" request.organizational_unit with
      | .error e => .error e
      | .ok name3 =>
        match appendOptionalEntry name3 "C" request.country with
        | .error e => .error e
        | .ok name4 =>
          match appendOptionalEntry name4 "ST" request.state with
          | .error e => .error e
          | .ok name5 =>
            match appendOptionalEntry name5 "L" request.locality with
            | .error e => .error e
            | .ok name6 => .ok name6

/-- The entries a supplied component contributes to a successfully built
subject name (used to state the success shape of `buildSubjectName`). -/
def suppliedEntries (key : String) : Option String → List (String × String)
  | some v => [(key, v)]
  | none => []

/-- The record built by `CertificateManager::issue_certificate`
(lines 238-248): status `active`, `expires_at` from the first `Utc::now()`
sample (`now1`, line 238) plus `validity_days` days, `issued_at` from the
second, later `Utc::now()` sample (`now2`, line 246). -/
def mkCertRecord (request : CertificateRequest) (certificate_id : String)
    (now1 now2 : Int) : CertificateRecord :=
  { certificate_id := certificate_id
    common_name := request.common_name
    dns_names := request.dns_names
    ip_addresses := request.ip_addresses
    status := "active"
    expires_at := now1 + (request.validity_days : Int) * 24 * 60 * 60
    issued_at := now2
    metadata := request.metadata }

/-- Embeds the store-facing tail of `CertificateManager::issue_certificate`
(lines 146-264): build the record, `store_certificate` it (`?`), then
`publish_event("issued", id)` (`?`), then return the result.  Key
generation, signing and the two file writes precede these steps and are
outside the store model; a fresh `Uuid::new_v4` id is the parameter
`certificate_id`. -/
def issue_certificate (fs : FailureSpec) (s : RedisState) (request : CertificateRequest)
    (certificate_id : String) (now1 now2 : Int) :
    RedisState × Except CertAgentError IssuedCertificate :=
  let cert_record := mkCertRecord request certificate_id now1 now2
  match store_certificate fs s cert_record with
  | (s1, .error e) => (s1, .error e)
  | (s1, .ok ()) =>
    match publish_event fs s1 "issued" certificate_id with
    | (s2, .error e) => (s2, .error e)
    | (s2, .ok ()) =>
      (s2, .ok { certificate_id := certificate_id
                 expires_at := cert_record.expires_at
                 status := "active" })

/-- The renewal request built by `CertificateManager::renew_certificate`
(lines 286-297): CN, SANs and metadata are carried over, the subject DN
components are all `None`, and the validity falls back to the configured
default. -/
def renewalRequest (cert_record : CertificateRecord) (validity_days : Option Nat)
    (default_validity_days : Nat) : CertificateRequest :=
  { common_name := cert_record.common_name
    dns_names := cert_record.dns_names
    ip_addresses := cert_record.ip_addresses
    validity_days := validity_days.getD default_validity_days
    organization := none
    organizational_unit := none
    country := none
    state := none
    locality := none
    metadata := cert_record.metadata }

/-- Embeds `CertificateManager::renew_certificate` (lines 266-314): fetch
the record (absence is `CertificateNotFound`), reject a non-`active`
status with a `Certificate` error, issue the replacement, mark the old id
`revoked`, then publish `revoked:<old>` and `renewed:<new>` (each `?`). -/
def renew_certificate (fs : FailureSpec) (s : RedisState) (certificate_id : String)
    (validity_days : Option Nat) (default_validity_days : Nat) (newId : String)
    (now1 now2 : Int) : RedisState × Except CertAgentError IssuedCertificate :=
  match get_certificate s certificate_id with
  | none => (s, .error (.CertificateNotFound certificate_id))
  | some cert_record =>
    if cert_record.status ≠ "active" then
      (s, .error (.Certificate ("Cannot renew certificate with status: " ++ cert_record.status)))
    else
      match issue_certificate fs s
          (renewalRequest cert_record validity_days default_validity_days) newId now1 now2 with
      | (s1, .error e) => (s1, .error e)
      | (s1, .ok new_cert) =>
        match update_certificate_status s1 certificate_id "revoked" with
        | (s2, .error e) => (s2, .error e)
        | (s2, .ok ()) =>
          match publish_event fs s2 "revoked" certificate_id with
          | (s3, .error e) => (s3, .error e)
          | (s3, .ok ()) =>
            match publish_event fs s3 "renewed" new_cert.certificate_id with
            | (s4, .error e) => (s4, .error e)
            | (s4, .ok ()) => (s4, .ok new_cert)

/-- Embeds `CertificateManager::revoke_certificate` (lines 316-335): set
the status to `revoked` (silent no-op when the id is absent), then publish
`revoked:<id>` or `revoked:<id>:<reason>` (`?`). -/
def revoke_certificate (fs : FailureSpec) (s : RedisState) (certificate_id : String)
    (reason : Option String) : RedisState × Except CertAgentError Unit :=
  match update_certificate_status s certificate_id "revoked" with
  | (s1, .error e) => (s1, .error e)
  | (s1, .ok ()) =>
    let event_data := match reason with
      | some r => certificate_id ++ ":" ++ r
      | none => certificate_id
    publish_event fs s1 "revoked" event_data

/-- Embeds `RenewCertificateRequest` from the RPC schema as used by
`src/grpc.rs` (lines 101-118): an id and a validity (0 means use the
configured default). -/
structure RenewCertificateRequestMsg where
  certificate_id : String
  validity_days : Int
deriving DecidableEq

/-- Embeds `RenewCertificateResponse` restricted to the store-relevant
fields (the PEMs are outside the model); `status` is kept as the manager
status string rather than the proto enum number. -/
structure RenewCertificateResponseMsg where
  certificate_id : String
  expires_at : Int
  status : String
deriving DecidableEq

/-- Embeds the renew handler `CertAgentService::renew_certificate`
(`src/grpc.rs` lines 101-143): translate `validity_days ≤ 0` to `None`,
call the manager, and map every manager error to
`Status::internal("Failed to renew certificate: <error>")` (line 137). -/
def grpc_renew_certificate (fs : FailureSpec) (s : RedisState)
    (req : RenewCertificateRequestMsg) (default_validity_days : Nat) (newId : String)
    (now1 now2 : Int) : RedisState × Except GrpcStatus RenewCertificateResponseMsg :=
  let validity_days : Option Nat :=
    if 0 < req.validity_days then some req.validity_days.toNat else none
  match renew_certificate fs s req.certificate_id validity_days default_validity_days
      newId now1 now2 with
  | (s1, .ok cert) =>
    (s1, .ok { certificate_id := cert.certificate_id
               expires_at := cert.expires_at
               status := cert.status })
  | (s1, .error e) =>
    (s1, .error (.internal ("Failed to renew certificate: " ++ errorMessage e)))

/-- Embeds the status handler `CertAgentService::get_certificate_status`
(`src/grpc.rs` lines 183-224): a missing record is surfaced as
`Status::not_found`. -/
def grpc_get_certificate_status (s : RedisState) (certificate_id : String) :
    Except GrpcStatus CertificateRecord :=
  match get_certificate s certificate_id with
  | some cert_record => .ok cert_record
  | none => .error (.notFound ("Certificate not found: " ++ certificate_id))

/-- Embeds the conversion the issue handler `CertAgentService::issue_certificate`
performs (`src/grpc.rs` lines 61-72): every subject DN component of the
proto request — a plain string, possibly empty — is wrapped in `Some`. -/
structure IssueCertificateRequestMsg where
  common_name : String
  dns_names : List String
  ip_addresses : List String
  validity_days : Nat
  organization : String
  organizational_unit : String
  country : String
  state : String
  locality : String
  metadata : List (String × String)
deriving DecidableEq

/-- The `CertificateRequest` built by the issue handler (`src/grpc.rs`
lines 61-72): DN components are always `Some(...)`, never `None`. -/
def grpcToCertRequest (m : IssueCertificateRequestMsg) : CertificateRequest :=
  { common_name := m.common_name
    dns_names := m.dns_names
    ip_addresses := m.ip_addresses
    validity_days := m.validity_days
    organization := some m.organization
    organizational_unit := some m.organizational_unit
    country := some m.country
    state := some m.state
    locality := some m.locality
    metadata := m.metadata }

/-- Embeds one renewal subtask of
`CertificateWatcher::check_and_renew_certificates` (`src/watcher.rs`
lines 77-111): renew; on success publish `auto_renewed:<new_id>` and on
failure publish `renewal_failed:<old_id>:<error>` — in both arms a publish
failure is only logged (`if let Err` + `warn!`), never propagated. -/
def watcher_renew_task (fs : FailureSpec) (s : RedisState) (cert_id : String)
    (default_validity_days : Nat) (newId : String) (now1 now2 : Int) :
    RedisState × Except CertAgentError String :=
  match renew_certificate fs s cert_id none default_validity_days newId now1 now2 with
  | (s1, .ok new_cert) =>
    ((publish_event fs s1 "auto_renewed" new_cert.certificate_id).1, .ok new_cert.certificate_id)
  | (s1, .error e) =>
    ((publish_event fs s1 "renewal_failed" (cert_id ++ ":" ++ errorMessage e)).1, .error e)

/-- Embeds `CertificateWatcher::check_certificate_health` (`src/watcher.rs`
lines 143-174): count records by status and publish the summary (the
publish error is propagated with `?`, line 171). -/
def check_certificate_health (fs : FailureSpec) (s : RedisState) :
    RedisState × Except CertAgentError Unit :=
  let all_certs := list_certificates s none
  let active_count := (all_certs.filter (fun c => c.status == "active")).length
  let expired_count := (all_certs.filter (fun c => c.status == "expired")).length
  let revoked_count := (all_certs.filter (fun c => c.status == "revoked")).length
  publish_event fs s "health_check"
    ("active:" ++ toString active_count ++ ",expired:" ++ toString expired_count ++
      ",revoked:" ++ toString revoked_count)

/-- Embeds `CertificateWatcher::cleanup_expired_certificates`
(`src/watcher.rs` lines 177-209): delete every `expired` record whose
`expires_at` is older than the cutoff, then, if anything was removed,
publish `cleanup:removed:<n>` (propagated with `?`, line 205).  Delete
failures are swallowed in the source; deletion always succeeds here. -/
def cleanup_expired_certificates (fs : FailureSpec) (s : RedisState) (days_old : Nat)
    (now : Int) : RedisState × Except CertAgentError Unit :=
  let cutoff_time : Int := now - (days_old : Int) * 24 * 60 * 60
  let all_certs := list_certificates s (some "expired")
  let to_remove := all_certs.filter (fun cert => decide (cert.expires_at < cutoff_time))
  let s1 := to_remove.foldl (fun acc cert => delete_certificate acc cert.certificate_id) s
  if to_remove.length > 0 then
    publish_event fs s1 "cleanup" ("removed:" ++ toString to_remove.length)
  else
    (s1, .ok ())

/-- One store-mutating operation of the engine, as invoked from the RPC
facade or the renewal loop.  Issue-like steps carry the freshness of the
generated `Uuid::new_v4` id as a hypothesis. -/
inductive Step : RedisState → RedisState → Prop where
  | issue (fs : FailureSpec) (s : RedisState) (request : CertificateRequest)
      (certificate_id : String) (now1 now2 : Int)
      (hfresh : lookupKV s.certs certificate_id = none) :
      Step s (issue_certificate fs s request certificate_id now1 now2).1
  | renew (fs : FailureSpec) (s : RedisState) (certificate_id : String)
      (validity_days : Option Nat) (default_validity_days : Nat) (newId : String)
      (now1 now2 : Int) (hfresh : lookupKV s.certs newId = none) :
      Step s (renew_certificate fs s certificate_id validity_days default_validity_days
        newId now1 now2).1
  | revoke (fs : FailureSpec) (s : RedisState) (certificate_id : String)
      (reason : Option String) :
      Step s (revoke_certificate fs s certificate_id reason).1
  | watcherRenew (fs : FailureSpec) (s : RedisState) (cert_id : String)
      (default_validity_days : Nat) (newId : String) (now1 now2 : Int)
      (hfresh : lookupKV s.certs newId = none) :
      Step s (watcher_renew_task fs s cert_id default_validity_days newId now1 now2).1
  | health (fs : FailureSpec) (s : RedisState) :
      Step s (check_certificate_health fs s).1
  | cleanup (fs : FailureSpec) (s : RedisState) (days_old : Nat) (now : Int) :
      Step s (cleanup_expired_certificates fs s days_old now).1

/-- Store states the engine can produce starting from an empty store. -/
inductive Reachable : RedisState → Prop where
  | init : Reachable emptyState
  | step {s s' : RedisState} : Reachable s → Step s s' → Reachable s'

/-- The status of the stored record for an id, if any. -/
def statusOf (s : RedisState) (certificate_id : String) : Option String :=
  (lookupKV s.certs certificate_id).map (fun sv => sv.record.status)

/-- Every stored record is `active` or `revoked` — the statuses the engine
can itself write. -/
def StatusesOk (s : RedisState) : Prop :=
  ∀ p ∈ s.certs, p.2.record.status = "active" ∨ p.2.record.status = "revoked"

/-- Every stored record has `issued_at ≤ expires_at`. -/
def RecordsOk (s : RedisState) : Prop :=
  ∀ p ∈ s.certs, p.2.record.issued_at ≤ p.2.record.expires_at

/-- A record is materialized in the store: its id is in the `certs:all`
index and the `cert:<id>` blob holds it. -/
def storedRecord (s : RedisState) (r : CertificateRecord) : Prop :=
  ∃ cid sv, cid ∈ s.index ∧ lookupKV s.certs cid = some sv ∧ sv.record = r

/-- The persistent certificate state: blobs and index, without the
fire-and-forget event channel. -/
def certState (s : RedisState) : List (String × StoredValue) × List String :=
  (s.certs, s.index)

/-- The blob `store_certificate` writes for a freshly issued record. -/
def issuedBlob (request : CertificateRequest) (cid : String) (now1 now2 : Int) : StoredValue :=
  { record := mkCertRecord request cid now1 now2, ttl := some oneYearTTL }

/-- The blob `update_certificate_status` writes over an existing blob when
revoking: same record with status `revoked`, and no TTL (plain SET). -/
def revokedBlob (sv : StoredValue) : StoredValue :=
  { record := { sv.record with status := "revoked" }, ttl := none }

/-- A sample issuance request. -/
def reqW : CertificateRequest :=
  { common_name := "svc.test"
    dns_names := ["svc.test"]
    ip_addresses := ["10.0.0.1"]
    validity_days := 30
    organization := some "Acme"
    organizational_unit := none
    country := none
    state := none
    locality := none
    metadata := [("team", "infra")] }

/-- A sample active record stored under id `a`. -/
def recW : CertificateRecord :=
  { certificate_id := "a"
    common_name := "svc.test"
    dns_names := []
    ip_addresses := []
    status := "active"
    expires_at := 1000
    issued_at := 0
    metadata := [] }

/-- The blob holding `recW` with the one-year TTL. -/
def blobW : StoredValue := { record := recW, ttl := some oneYearTTL }

/-- A store holding exactly `recW`. -/
def sW : RedisState := { certs := [("a", blobW)], index := ["a"], events := [] }

/-- Oracle failing exactly the PUBLISH of the `issued` event. -/
def failIssuedOracle : FailureSpec :=
  { setFails := false, saddFails := false, failEvents := ["issued"] }

/-- Oracle failing exactly the PUBLISH of the `auto_renewed` event. -/
def failAutoRenewedOracle : FailureSpec :=
  { setFails := false, saddFails := false, failEvents := ["auto_renewed"] }

/-- The state after issuing `reqW` under id `a` into the empty store. -/
def sIssueW : RedisState := (issue_certificate noFail emptyState reqW "a" 0 0).1

/-- The request `reqW` with an explicitly supplied empty organization. -/
def reqEmptyO : CertificateRequest := { reqW with organization := some "" }

/-- `reqW` with a zero-day validity. -/
def reqZeroDays : CertificateRequest := { reqW with validity_days := 0 }

/-- A store with one live record and one dangling index entry `ghost`. -/
def sDangling : RedisState :=
  { certs := [("a", blobW)], index := ["a", "ghost"], events := [] }

/-! ### Lemmas, claim theorems, witnesses and counterexamples -/

theorem lookupKV_setKV_self (l : List (String × StoredValue)) (k : String) (v : StoredValue) :
    lookupKV (setKV l k v) k = some v := by
  induction l with
  | nil => simp [setKV, lookupKV]
  | cons p t ih =>
    by_cases h : p.1 = k
    · simp [setKV, lookupKV, h]
    · simpa [setKV, lookupKV, h] using ih

theorem lookupKV_setKV_ne (l : List (String × StoredValue)) (k j : String) (v : StoredValue)
    (h : j ≠ k) : lookupKV (setKV l k v) j = lookupKV l j := by
  induction l with
  | nil => simp [setKV, lookupKV, Ne.symm h]
  | cons p t ih =>
    by_cases hk : p.1 = k
    · subst hk
      simp [setKV, lookupKV, Ne.symm h]
    · by_cases hj : p.1 = j <;> simp [setKV, lookupKV, hk, hj, ih, h]

theorem mem_setKV {l : List (String × StoredValue)} {k : String} {v : StoredValue}
    {p : String × StoredValue} (h : p ∈ setKV l k v) : p = (k, v) ∨ p ∈ l := by
  induction l with
  | nil => simpa [setKV] using h
  | cons q t ih =>
    by_cases hk : q.1 = k
    · rcases (by simpa [setKV, hk] using h) with h' | h'
      · exact Or.inl h'
      · exact Or.inr (List.mem_cons_of_mem _ h')
    · rcases (by simpa [setKV, hk] using h) with h' | h'
      · exact Or.inr (by simp [h'])
      · rcases ih h' with h'' | h''
        · exact Or.inl h''
        · exact Or.inr (List.mem_cons_of_mem _ h'')

theorem lookupKV_mem {l : List (String × StoredValue)} {k : String} {v : StoredValue}
    (h : lookupKV l k = some v) : (k, v) ∈ l := by
  induction l with
  | nil => simp [lookupKV] at h
  | cons p t ih =>
    by_cases hk : p.1 = k
    · have hv : p.2 = v := by simpa [lookupKV, hk] using h
      have hp : p = (k, v) := by
        rcases p with ⟨pk, pv⟩
        simp_all
      rw [hp]
      exact List.mem_cons_self _ _
    · exact List.mem_cons_of_mem _ (ih (by simpa [lookupKV, hk] using h))

theorem setKV_setKV (l : List (String × StoredValue)) (k : String) (v w : StoredValue) :
    setKV (setKV l k v) k w = setKV l k w := by
  induction l with
  | nil => simp [setKV]
  | cons p t ih =>
    by_cases hk : p.1 = k
    · simp [setKV, hk]
    · simp [setKV, hk, ih]

theorem publish_event_certs (fs : FailureSpec) (s : RedisState) (event data : String) :
    (publish_event fs s event data).1.certs = s.certs := by
  unfold publish_event
  split <;> rfl

theorem publish_event_index (fs : FailureSpec) (s : RedisState) (event data : String) :
    (publish_event fs s event data).1.index = s.index := by
  unfold publish_event
  split <;> rfl

theorem update_certificate_status_missing (s : RedisState) (cid st : String)
    (h : lookupKV s.certs cid = none) :
    update_certificate_status s cid st = (s, .ok ()) := by
  unfold update_certificate_status
  rw [h]

theorem update_certificate_status_found (s : RedisState) (cid st : String) (sv : StoredValue)
    (h : lookupKV s.certs cid = some sv) :
    update_certificate_status s cid st =
      ({ s with certs := setKV s.certs cid { record := { sv.record with status := st }, ttl := none } }, .ok ()) := by
  unfold update_certificate_status
  rw [h]

/-- Full case analysis of `issue_certificate` over the failure oracle: the
four possible outcomes, with the exact store state and result of each. -/
theorem issue_certificate_cases (fs : FailureSpec) (s : RedisState)
    (request : CertificateRequest) (cid : String) (now1 now2 : Int) :
    (fs.setFails = true ∧
      issue_certificate fs s request cid now1 now2 = (s, .error (.Redis "SETEX failed"))) ∨
    (fs.setFails = false ∧ fs.saddFails = true ∧
      issue_certificate fs s request cid now1 now2 =
        ({ s with certs := setKV s.certs cid (issuedBlob request cid now1 now2) },
          .error (.Redis "SADD failed"))) ∨
    (fs.setFails = false ∧ fs.saddFails = false ∧ "issued" ∈ fs.failEvents ∧
      issue_certificate fs s request cid now1 now2 =
        ({ s with
            certs := setKV s.certs cid (issuedBlob request cid now1 now2)
            index := saddIndex s.index cid },
          .error (.Redis "PUBLISH failed"))) ∨
    (fs.setFails = false ∧ fs.saddFails = false ∧ "issued" ∉ fs.failEvents ∧
      issue_certificate fs s request cid now1 now2 =
        ({ s with
            certs := setKV s.certs cid (issuedBlob request cid now1 now2)
            index := saddIndex s.index cid
            events := s.events ++ ["issued:" ++ cid] },
          .ok { certificate_id := cid
                expires_at := (mkCertRecord request cid now1 now2).expires_at
                status := "active" })) := by
  cases hset : fs.setFails
  · cases hsadd : fs.saddFails
    · by_cases hpub : "issued" ∈ fs.failEvents
      · refine Or.inr (Or.inr (Or.inl ⟨rfl, rfl, hpub, ?_⟩))
        simp [issue_certificate, store_certificate, publish_event, hset, hsadd, hpub,
          issuedBlob, mkCertRecord]
      · refine Or.inr (Or.inr (Or.inr ⟨rfl, rfl, hpub, ?_⟩))
        simp [issue_certificate, store_certificate, publish_event, hset, hsadd, hpub,
          issuedBlob, mkCertRecord]
    · refine Or.inr (Or.inl ⟨rfl, rfl, ?_⟩)
      simp [issue_certificate, store_certificate, hset, hsadd, issuedBlob, mkCertRecord]
  · exact Or.inl ⟨rfl, by simp [issue_certificate, store_certificate, hset]⟩

/-- The certificate blobs after `issue_certificate`: unchanged, or exactly
one SETEX of the fresh blob. -/
theorem issue_certificate_certs (fs : FailureSpec) (s : RedisState)
    (request : CertificateRequest) (cid : String) (now1 now2 : Int) :
    (issue_certificate fs s request cid now1 now2).1.certs = s.certs ∨
    (issue_certificate fs s request cid now1 now2).1.certs =
      setKV s.certs cid (issuedBlob request cid now1 now2) := by
  rcases issue_certificate_cases fs s request cid now1 now2 with
    ⟨_, h⟩ | ⟨_, _, h⟩ | ⟨_, _, _, h⟩ | ⟨_, _, _, h⟩ <;> rw [h]
  · exact Or.inl rfl
  · exact Or.inr rfl
  · exact Or.inr rfl
  · exact Or.inr rfl

theorem renew_certificate_missing (fs : FailureSpec) (s : RedisState) (cid : String)
    (vd : Option Nat) (defv : Nat) (newId : String) (n1 n2 : Int)
    (h : lookupKV s.certs cid = none) :
    renew_certificate fs s cid vd defv newId n1 n2 =
      (s, .error (.CertificateNotFound cid)) := by
  simp [renew_certificate, get_certificate, h]

theorem renew_certificate_conflict (fs : FailureSpec) (s : RedisState) (cid : String)
    (vd : Option Nat) (defv : Nat) (newId : String) (n1 n2 : Int) (sv : StoredValue)
    (h : lookupKV s.certs cid = some sv) (hst : sv.record.status ≠ "active") :
    renew_certificate fs s cid vd defv newId n1 n2 =
      (s, .error (.Certificate ("Cannot renew certificate with status: " ++ sv.record.status))) := by
  simp [renew_certificate, get_certificate, h, hst]

/-- The certificate blobs after `renew_certificate` with a fresh new id:
unchanged, or the new blob written, or the new blob written and the old
record rewritten as revoked. -/
theorem renew_certificate_certs (fs : FailureSpec) (s : RedisState) (cid : String)
    (vd : Option Nat) (defv : Nat) (newId : String) (n1 n2 : Int)
    (hfresh : lookupKV s.certs newId = none) :
    (renew_certificate fs s cid vd defv newId n1 n2).1.certs = s.certs ∨
    (∃ sv, lookupKV s.certs cid = some sv ∧ sv.record.status = "active" ∧
      ((renew_certificate fs s cid vd defv newId n1 n2).1.certs =
          setKV s.certs newId (issuedBlob (renewalRequest sv.record vd defv) newId n1 n2) ∨
        (renew_certificate fs s cid vd defv newId n1 n2).1.certs =
          setKV (setKV s.certs newId (issuedBlob (renewalRequest sv.record vd defv) newId n1 n2))
            cid (revokedBlob sv))) := by
  cases hlook : lookupKV s.certs cid with
  | none =>
    left
    rw [renew_certificate_missing fs s cid vd defv newId n1 n2 hlook]
  | some sv =>
    by_cases hst : sv.record.status = "active"
    · have hne : cid ≠ newId := by
        intro he
        rw [he, hfresh] at hlook
        exact Option.noConfusion hlook
      rcases issue_certificate_cases fs s (renewalRequest sv.record vd defv) newId n1 n2 with
        ⟨hset, hiss⟩ | ⟨hset, hsadd, hiss⟩ | ⟨hset, hsadd, hpub, hiss⟩ | ⟨hset, hsadd, hpub, hiss⟩
      · left
        simp [renew_certificate, get_certificate, hlook, hst, hiss]
      · refine Or.inr ⟨sv, rfl, hst, Or.inl ?_⟩
        simp [renew_certificate, get_certificate, hlook, hst, hiss]
      · refine Or.inr ⟨sv, rfl, hst, Or.inl ?_⟩
        simp [renew_certificate, get_certificate, hlook, hst, hiss]
      · refine Or.inr ⟨sv, rfl, hst, Or.inr ?_⟩
        have hlook2 : lookupKV (setKV s.certs newId
            (issuedBlob (renewalRequest sv.record vd defv) newId n1 n2)) cid = some sv := by
          rw [lookupKV_setKV_ne _ _ _ _ hne]
          exact hlook
        by_cases h1 : "revoked" ∈ fs.failEvents <;> by_cases h2 : "renewed" ∈ fs.failEvents <;>
          simp [renew_certificate, get_certificate, hlook, hst, hiss,
            update_certificate_status, hlook2, publish_event, h1, h2, revokedBlob]
    · left
      rw [renew_certificate_conflict fs s cid vd defv newId n1 n2 sv hlook hst]

theorem update_certificate_status_snd (s : RedisState) (cid st : String) :
    (update_certificate_status s cid st).2 = .ok () := by
  unfold update_certificate_status
  cases lookupKV s.certs cid <;> rfl

theorem revokedBlob_idem (sv : StoredValue) : revokedBlob (revokedBlob sv) = revokedBlob sv := by
  cases sv with
  | mk r t =>
    cases r
    rfl

theorem revoke_certificate_certs_missing (fs : FailureSpec) (s : RedisState) (cid : String)
    (reason : Option String) (h : lookupKV s.certs cid = none) :
    (revoke_certificate fs s cid reason).1.certs = s.certs := by
  simp [revoke_certificate, update_certificate_status_missing s cid _ h, publish_event_certs]

theorem revoke_certificate_certs_found (fs : FailureSpec) (s : RedisState) (cid : String)
    (reason : Option String) (sv : StoredValue) (h : lookupKV s.certs cid = some sv) :
    (revoke_certificate fs s cid reason).1.certs = setKV s.certs cid (revokedBlob sv) := by
  simp [revoke_certificate, update_certificate_status_found s cid _ sv h, publish_event_certs,
    revokedBlob]

theorem revoke_certificate_index (fs : FailureSpec) (s : RedisState) (cid : String)
    (reason : Option String) :
    (revoke_certificate fs s cid reason).1.index = s.index := by
  cases hlook : lookupKV s.certs cid with
  | none =>
    simp [revoke_certificate, update_certificate_status_missing s cid _ hlook, publish_event_index]
  | some sv =>
    simp [revoke_certificate, update_certificate_status_found s cid _ sv hlook, publish_event_index]

theorem watcher_renew_task_certs (fs : FailureSpec) (s : RedisState) (cid : String)
    (defv : Nat) (newId : String) (n1 n2 : Int) :
    (watcher_renew_task fs s cid defv newId n1 n2).1.certs =
      (renew_certificate fs s cid none defv newId n1 n2).1.certs := by
  unfold watcher_renew_task
  cases hren : renew_certificate fs s cid none defv newId n1 n2 with
  | mk s1 res => cases res <;> simp [publish_event_certs]

theorem check_certificate_health_certs (fs : FailureSpec) (s : RedisState) :
    (check_certificate_health fs s).1.certs = s.certs := by
  simp [check_certificate_health, publish_event_certs]

theorem list_certificates_expired_nil (s : RedisState) (h : StatusesOk s) :
    list_certificates s (some "expired") = [] := by
  unfold list_certificates
  rw [List.filterMap_eq_nil_iff]
  intro cid hcid
  cases hlook : lookupKV s.certs cid with
  | none => simp [hlook]
  | some sv =>
    have hne : sv.record.status ≠ "expired" := by
      rcases h _ (lookupKV_mem hlook) with hst | hst <;> rw [hst] <;> decide
    simp [hlook, hne]

theorem cleanup_of_statusesOk (fs : FailureSpec) (s : RedisState) (days_old : Nat) (now : Int)
    (h : StatusesOk s) :
    cleanup_expired_certificates fs s days_old now = (s, .ok ()) := by
  unfold cleanup_expired_certificates
  rw [list_certificates_expired_nil s h]
  simp

theorem mem_list_certificates_some (s : RedisState) (st : String) (r : CertificateRecord) :
    r ∈ list_certificates s (some st) ↔ storedRecord s r ∧ r.status = st := by
  unfold list_certificates storedRecord
  rw [List.mem_filterMap]
  constructor
  · rintro ⟨cid, hcid, hf⟩
    cases hlook : lookupKV s.certs cid with
    | none =>
      rw [hlook] at hf
      exact absurd hf (by simp)
    | some sv =>
      rw [hlook] at hf
      by_cases hs : sv.record.status = st
      · have hr : sv.record = r := by simpa [hs] using hf
        exact ⟨⟨cid, sv, hcid, hlook, hr⟩, by rw [← hr]; exact hs⟩
      · simp [hs] at hf
  · rintro ⟨⟨cid, sv, hcid, hlook, hr⟩, hst⟩
    refine ⟨cid, hcid, ?_⟩
    rw [hlook]
    simp [hr, hst]

theorem statusesOk_step {s s' : RedisState} (hok : StatusesOk s) (hstep : Step s s') :
    StatusesOk s' := by
  cases hstep with
  | issue fs s request iid n1 n2 hfresh =>
    intro p hp
    rcases issue_certificate_certs fs s request iid n1 n2 with hc | hc
    · exact hok p (by rw [hc] at hp; exact hp)
    · rw [hc] at hp
      rcases mem_setKV hp with he | he
      · rw [he]
        left
        rfl
      · exact hok p he
  | renew fs s rid vd defv newId n1 n2 hfresh =>
    intro p hp
    rcases renew_certificate_certs fs s rid vd defv newId n1 n2 hfresh with
      hc | ⟨sv, hlook, hstv, hc | hc⟩
    · exact hok p (by rw [hc] at hp; exact hp)
    · rw [hc] at hp
      rcases mem_setKV hp with he | he
      · rw [he]
        left
        rfl
      · exact hok p he
    · rw [hc] at hp
      rcases mem_setKV hp with he | he
      · rw [he]
        right
        rfl
      · rcases mem_setKV he with he2 | he2
        · rw [he2]
          left
          rfl
        · exact hok p he2
  | revoke fs s rid reason =>
    intro p hp
    cases hlook : lookupKV s.certs rid with
    | none =>
      exact hok p (by rw [revoke_certificate_certs_missing fs s rid reason hlook] at hp; exact hp)
    | some sv =>
      rw [revoke_certificate_certs_found fs s rid reason sv hlook] at hp
      rcases mem_setKV hp with he | he
      · rw [he]
        right
        rfl
      · exact hok p he
  | watcherRenew fs s rid defv newId n1 n2 hfresh =>
    intro p hp
    rw [watcher_renew_task_certs fs s rid defv newId n1 n2] at hp
    rcases renew_certificate_certs fs s rid none defv newId n1 n2 hfresh with
      hc | ⟨sv, hlook, hstv, hc | hc⟩
    · exact hok p (by rw [hc] at hp; exact hp)
    · rw [hc] at hp
      rcases mem_setKV hp with he | he
      · rw [he]
        left
        rfl
      · exact hok p he
    · rw [hc] at hp
      rcases mem_setKV hp with he | he
      · rw [he]
        right
        rfl
      · rcases mem_setKV he with he2 | he2
        · rw [he2]
          left
          rfl
        · exact hok p he2
  | health fs s =>
    intro p hp
    rw [check_certificate_health_certs fs s] at hp
    exact hok p hp
  | cleanup fs s days_old now =>
    have hc := cleanup_of_statusesOk fs s days_old now hok
    rw [hc]
    exact hok

theorem statusesOk_reachable {s : RedisState} (h : Reachable s) : StatusesOk s := by
  induction h with
  | init =>
    intro p hp
    exact absurd hp (by simp [emptyState])
  | step hr hstep ih => exact statusesOk_step ih hstep

theorem statusOf_eq_some {s : RedisState} {cid st : String} (h : statusOf s cid = some st) :
    ∃ sv, lookupKV s.certs cid = some sv ∧ sv.record.status = st := by
  unfold statusOf at h
  cases hlook : lookupKV s.certs cid with
  | none =>
    rw [hlook] at h
    cases h
  | some sv =>
    rw [hlook] at h
    exact ⟨sv, rfl, by simpa using h⟩

/-- Status evolution of any id across `renew_certificate` with a fresh new
id: unchanged, or the renewed id going `active → revoked`. -/
theorem renew_status_change (fs : FailureSpec) (s : RedisState) (rid : String)
    (vd : Option Nat) (defv : Nat) (newId : String) (n1 n2 : Int)
    (hfresh : lookupKV s.certs newId = none) (cid st st' : String)
    (hbefore : (lookupKV s.certs cid).map (fun sv => sv.record.status) = some st)
    (hafter : (lookupKV (renew_certificate fs s rid vd defv newId n1 n2).1.certs cid).map
      (fun sv => sv.record.status) = some st') :
    st = st' ∨ (st = "active" ∧ st' = "revoked") := by
  obtain ⟨sv0, hlook0, hst0⟩ : ∃ sv, lookupKV s.certs cid = some sv ∧ sv.record.status = st := by
    cases hlook : lookupKV s.certs cid with
    | none =>
      rw [hlook] at hbefore
      cases hbefore
    | some sv =>
      rw [hlook] at hbefore
      exact ⟨sv, rfl, by simpa using hbefore⟩
  have hcidnew : cid ≠ newId := by
    intro he
    rw [he, hfresh] at hlook0
    exact Option.noConfusion hlook0
  rcases renew_certificate_certs fs s rid vd defv newId n1 n2 hfresh with
    hc | ⟨sv, hlook, hstv, hc | hc⟩
  · rw [hc, hlook0] at hafter
    left
    rw [← hst0]
    exact Option.some.inj (by simpa using hafter)
  · rw [hc, lookupKV_setKV_ne _ _ _ _ hcidnew, hlook0] at hafter
    left
    rw [← hst0]
    exact Option.some.inj (by simpa using hafter)
  · by_cases hcr : cid = rid
    · subst hcr
      rw [hc, lookupKV_setKV_self] at hafter
      have hsv : sv0 = sv := by
        rw [hlook0] at hlook
        exact Option.some.inj hlook
      right
      constructor
      · rw [← hst0, hsv]
        exact hstv
      · have : (revokedBlob sv).record.status = st' := by simpa using hafter
        rw [← this]
        rfl
    · rw [hc, lookupKV_setKV_ne _ _ _ _ hcr, lookupKV_setKV_ne _ _ _ _ hcidnew, hlook0]
        at hafter
      left
      rw [← hst0]
      exact Option.some.inj (by simpa using hafter)

theorem recordsOk_issue (fs : FailureSpec) (s : RedisState) (request : CertificateRequest)
    (cid : String) (n1 n2 : Int) (hok : RecordsOk s)
    (hclock : n2 ≤ n1 + (request.validity_days : Int) * 24 * 60 * 60) :
    RecordsOk (issue_certificate fs s request cid n1 n2).1 := by
  intro p hp
  rcases issue_certificate_certs fs s request cid n1 n2 with hc | hc
  · exact hok p (by rw [hc] at hp; exact hp)
  · rw [hc] at hp
    rcases mem_setKV hp with he | he
    · rw [he]
      exact hclock
    · exact hok p he

theorem recordsOk_update (s : RedisState) (cid st : String) (hok : RecordsOk s) :
    RecordsOk (update_certificate_status s cid st).1 := by
  intro p hp
  cases hlook : lookupKV s.certs cid with
  | none =>
    rw [update_certificate_status_missing s cid st hlook] at hp
    exact hok p hp
  | some sv =>
    rw [update_certificate_status_found s cid st sv hlook] at hp
    rcases mem_setKV hp with he | he
    · rw [he]
      exact hok (cid, sv) (lookupKV_mem hlook)
    · exact hok p he

theorem recordsOk_renew (fs : FailureSpec) (s : RedisState) (rid : String)
    (vd : Option Nat) (defv : Nat) (newId : String) (n1 n2 : Int)
    (hfresh : lookupKV s.certs newId = none) (hok : RecordsOk s)
    (hclock : n2 ≤ n1 + ((vd.getD defv : Nat) : Int) * 24 * 60 * 60) :
    RecordsOk (renew_certificate fs s rid vd defv newId n1 n2).1 := by
  intro p hp
  rcases renew_certificate_certs fs s rid vd defv newId n1 n2 hfresh with
    hc | ⟨sv, hlook, hstv, hc | hc⟩
  · exact hok p (by rw [hc] at hp; exact hp)
  · rw [hc] at hp
    rcases mem_setKV hp with he | he
    · rw [he]
      exact hclock
    · exact hok p he
  · rw [hc] at hp
    rcases mem_setKV hp with he | he
    · rw [he]
      exact hok (rid, sv) (lookupKV_mem hlook)
    · rcases mem_setKV he with he2 | he2
      · rw [he2]
        exact hclock
      · exact hok p he2

theorem recordsOk_revoke (fs : FailureSpec) (s : RedisState) (cid : String)
    (reason : Option String) (hok : RecordsOk s) :
    RecordsOk (revoke_certificate fs s cid reason).1 := by
  intro p hp
  cases hlook : lookupKV s.certs cid with
  | none =>
    rw [revoke_certificate_certs_missing fs s cid reason hlook] at hp
    exact hok p hp
  | some sv =>
    rw [revoke_certificate_certs_found fs s cid reason sv hlook] at hp
    rcases mem_setKV hp with he | he
    · rw [he]
      exact hok (cid, sv) (lookupKV_mem hlook)
    · exact hok p he

theorem recordsOk_delete (s : RedisState) (cid : String) (hok : RecordsOk s) :
    RecordsOk (delete_certificate s cid) := by
  intro p hp
  exact hok p (List.mem_of_mem_filter hp)

theorem recordsOk_cleanup (fs : FailureSpec) (s : RedisState) (days_old : Nat) (now : Int)
    (hok : RecordsOk s) :
    RecordsOk (cleanup_expired_certificates fs s days_old now).1 := by
  unfold cleanup_expired_certificates
  have hfold : ∀ (l : List CertificateRecord) (s0 : RedisState), RecordsOk s0 →
      RecordsOk (l.foldl (fun acc cert => delete_certificate acc cert.certificate_id) s0) := by
    intro l
    induction l with
    | nil => intro s0 h0; exact h0
    | cons c t ih => intro s0 h0; exact ih _ (recordsOk_delete s0 c.certificate_id h0)
  dsimp only
  split
  · intro p hp
    rw [publish_event_certs] at hp
    exact hfold _ s hok p hp
  · exact hfold _ s hok

theorem mem_saddIndex_self (l : List String) (cid : String) : cid ∈ saddIndex l cid := by
  unfold saddIndex
  split
  · assumption
  · simp

theorem mem_saddIndex_ne (l : List String) (cid j : String) (h : j ≠ cid) :
    j ∈ saddIndex l cid ↔ j ∈ l := by
  unfold saddIndex
  split
  · exact Iff.rfl
  · simp [h]

theorem revoke_certificate_snd_noFail (s : RedisState) (cid : String) (reason : Option String) :
    (revoke_certificate noFail s cid reason).2 = .ok () := by
  cases hlook : lookupKV s.certs cid with
  | none =>
    simp [revoke_certificate, update_certificate_status_missing s cid _ hlook, publish_event,
      noFail]
  | some sv =>
    simp [revoke_certificate, update_certificate_status_found s cid _ sv hlook, publish_event,
      noFail]

/-- The result of a fully successful `renew_certificate`. -/
theorem renew_certificate_ok_snd (fs : FailureSpec) (s : RedisState) (rid : String)
    (vd : Option Nat) (defv : Nat) (newId : String) (n1 n2 : Int) (sv : StoredValue)
    (hlook : lookupKV s.certs rid = some sv) (hst : sv.record.status = "active")
    (hset : fs.setFails = false) (hsadd : fs.saddFails = false)
    (h1 : "issued" ∉ fs.failEvents) (h2 : "revoked" ∉ fs.failEvents)
    (h3 : "renewed" ∉ fs.failEvents) :
    (renew_certificate fs s rid vd defv newId n1 n2).2 =
      .ok { certificate_id := newId
            expires_at := (mkCertRecord (renewalRequest sv.record vd defv) newId n1 n2).expires_at
            status := "active" } := by
  rcases issue_certificate_cases fs s (renewalRequest sv.record vd defv) newId n1 n2 with
    ⟨h, _⟩ | ⟨_, h, _⟩ | ⟨_, _, h, _⟩ | ⟨_, _, _, hiss⟩
  · rw [hset] at h
    cases h
  · rw [hsadd] at h
    cases h
  · exact absurd h h1
  · have hup : ∃ svu, lookupKV
        (issue_certificate fs s (renewalRequest sv.record vd defv) newId n1 n2).1.certs rid =
        some svu := by
      rw [hiss]
      by_cases hrn : rid = newId
      · subst hrn
        exact ⟨_, lookupKV_setKV_self _ _ _⟩
      · rw [lookupKV_setKV_ne _ _ _ _ hrn]
        exact ⟨sv, hlook⟩
    obtain ⟨svu, hsvu⟩ := hup
    rw [hiss] at hsvu
    simp [renew_certificate, get_certificate, hlook, hst, hiss, update_certificate_status,
      hsvu, publish_event, h2, h3]

/-- C1 counterexample: an issuance whose record was stored successfully
(the `cert:<id>` blob is present afterwards) returns an error when only the
subsequent PUBLISH of `issued:<id>` fails — the publish failure is
propagated to the caller, contradicting the claim that it never is. -/
theorem c1_counterexample :
    (issue_certificate failIssuedOracle emptyState reqW "b" 0 0).2 =
      .error (.Redis "PUBLISH failed") ∧
    lookupKV (issue_certificate failIssuedOracle emptyState reqW "b" 0 0).1.certs "b" =
      some (issuedBlob reqW "b" 0 0) ∧
    "b" ∈ (issue_certificate failIssuedOracle emptyState reqW "b" 0 0).1.index := by
  refine ⟨rfl, rfl, ?_⟩
  decide

/-- C1 (amended): publish failures in the manager operations are propagated
to the caller via `?` — in particular an issuance whose certificate record
and index entry have been stored successfully returns an error when the
PUBLISH of `issued:<id>` fails, leaving the record stored; only the
renewal-loop subtask swallows its publish failures: with only the
`auto_renewed` publish failing, the subtask still returns success for a
renewable record. -/
theorem c1_amended :
    (∀ (s : RedisState) (request : CertificateRequest) (cid : String) (n1 n2 : Int),
      (issue_certificate failIssuedOracle s request cid n1 n2).2 =
        .error (.Redis "PUBLISH failed") ∧
      lookupKV (issue_certificate failIssuedOracle s request cid n1 n2).1.certs cid =
        some (issuedBlob request cid n1 n2) ∧
      cid ∈ (issue_certificate failIssuedOracle s request cid n1 n2).1.index) ∧
    (∀ (s : RedisState) (cid : String) (defv : Nat) (newId : String) (n1 n2 : Int)
        (sv : StoredValue), lookupKV s.certs cid = some sv → sv.record.status = "active" →
      (watcher_renew_task failAutoRenewedOracle s cid defv newId n1 n2).2 = .ok newId) := by
  constructor
  · intro s request cid n1 n2
    rcases issue_certificate_cases failIssuedOracle s request cid n1 n2 with
      ⟨h, _⟩ | ⟨_, h, _⟩ | ⟨_, _, _, hiss⟩ | ⟨_, _, h, _⟩
    · exact absurd h (by decide)
    · exact absurd h (by decide)
    · rw [hiss]
      exact ⟨rfl, lookupKV_setKV_self _ _ _, mem_saddIndex_self _ _⟩
    · exact absurd (by decide : "issued" ∈ failIssuedOracle.failEvents) h
  · intro s cid defv newId n1 n2 sv hlook hst
    have hren := renew_certificate_ok_snd failAutoRenewedOracle s cid none defv newId n1 n2 sv
      hlook hst rfl rfl (by decide) (by decide) (by decide)
    unfold watcher_renew_task
    cases hr : renew_certificate failAutoRenewedOracle s cid none defv newId n1 n2 with
    | mk s1 res =>
      rw [hr] at hren
      simp only at hren
      rw [hren]

/-- C1 witness: the amended theorem at a concrete renewable store. -/
theorem c1_witness :
    lookupKV sW.certs "a" = some blobW ∧ blobW.record.status = "active" ∧
    (watcher_renew_task failAutoRenewedOracle sW "a" 365 "b" 0 0).2 = .ok "b" := by
  exact ⟨rfl, rfl, c1_amended.2 sW "a" 365 "b" 0 0 blobW rfl rfl⟩

/-- C2 counterexample: `issue_certificate` returns an error (the SADD of
the index entry failed) while the `cert:<id>` record has already been
written — an error return does not imply the store is unchanged. -/
theorem c2_counterexample :
    (issue_certificate { setFails := false, saddFails := true, failEvents := [] }
        emptyState reqW "b" 0 0).2 = .error (.Redis "SADD failed") ∧
    lookupKV (issue_certificate { setFails := false, saddFails := true, failEvents := [] }
        emptyState reqW "b" 0 0).1.certs "b" = some (issuedBlob reqW "b" 0 0) := by
  exact ⟨rfl, rfl⟩

/-- C2 (amended): the store after `issue_certificate` has one of exactly
three shapes — unchanged (the record SETEX failed), record written without
its index entry (the SADD failed), or record and index entry written (with
an error only when the subsequent `issued` publish failed); a successful
call adds exactly the one record and one index entry, leaving every other
id untouched. -/
theorem c2_amended (fs : FailureSpec) (s : RedisState) (request : CertificateRequest)
    (cid : String) (n1 n2 : Int) :
    (((issue_certificate fs s request cid n1 n2).1.certs = s.certs ∧
        (issue_certificate fs s request cid n1 n2).1.index = s.index ∧
        (issue_certificate fs s request cid n1 n2).2 = .error (.Redis "SETEX failed")) ∨
      ((issue_certificate fs s request cid n1 n2).1.certs =
          setKV s.certs cid (issuedBlob request cid n1 n2) ∧
        (issue_certificate fs s request cid n1 n2).1.index = s.index ∧
        (issue_certificate fs s request cid n1 n2).2 = .error (.Redis "SADD failed")) ∨
      ((issue_certificate fs s request cid n1 n2).1.certs =
          setKV s.certs cid (issuedBlob request cid n1 n2) ∧
        (issue_certificate fs s request cid n1 n2).1.index = saddIndex s.index cid ∧
        ((issue_certificate fs s request cid n1 n2).2 = .error (.Redis "PUBLISH failed") ∨
          (issue_certificate fs s request cid n1 n2).2 =
            .ok { certificate_id := cid
                  expires_at := (mkCertRecord request cid n1 n2).expires_at
                  status := "active" }))) ∧
    (∀ j : String, j = cid ∨
      (lookupKV (issue_certificate fs s request cid n1 n2).1.certs j = lookupKV s.certs j ∧
        (j ∈ (issue_certificate fs s request cid n1 n2).1.index ↔ j ∈ s.index))) := by
  have hshape := issue_certificate_cases fs s request cid n1 n2
  constructor
  · rcases hshape with ⟨_, h⟩ | ⟨_, _, h⟩ | ⟨_, _, _, h⟩ | ⟨_, _, _, h⟩ <;> rw [h]
    · exact Or.inl ⟨rfl, rfl, rfl⟩
    · exact Or.inr (Or.inl ⟨rfl, rfl, rfl⟩)
    · exact Or.inr (Or.inr ⟨rfl, rfl, Or.inl rfl⟩)
    · exact Or.inr (Or.inr ⟨rfl, rfl, Or.inr rfl⟩)
  · intro j
    by_cases hj : j = cid
    · exact Or.inl hj
    · refine Or.inr ?_
      rcases hshape with ⟨_, h⟩ | ⟨_, _, h⟩ | ⟨_, _, _, h⟩ | ⟨_, _, _, h⟩ <;> rw [h]
      · exact ⟨rfl, Iff.rfl⟩
      · exact ⟨lookupKV_setKV_ne _ _ _ _ hj, Iff.rfl⟩
      · exact ⟨lookupKV_setKV_ne _ _ _ _ hj, mem_saddIndex_ne _ _ _ hj⟩
      · exact ⟨lookupKV_setKV_ne _ _ _ _ hj, mem_saddIndex_ne _ _ _ hj⟩

/-- C3: `expiring_within` returns a record R exactly when R is in the store
with status `active` and `0 < R.expires_at - now ≤ threshold_days * 86400`;
already-expired records and non-active records are excluded. -/
theorem c3_expiring_within_spec (s : RedisState) (threshold_days : Nat) (now : Int)
    (r : CertificateRecord) :
    r ∈ get_expiring_certificates s threshold_days now ↔
      (storedRecord s r ∧ r.status = "active" ∧
        0 < r.expires_at - now ∧ r.expires_at - now ≤ (threshold_days : Int) * 86400) := by
  simp only [get_expiring_certificates, List.mem_filter, decide_eq_true_eq,
    mem_list_certificates_some]
  constructor
  · rintro ⟨⟨hstored, hstatus⟩, h1, h2⟩
    refine ⟨hstored, hstatus, h1, ?_⟩
    calc r.expires_at - now ≤ (threshold_days : Int) * 24 * 60 * 60 := h2
      _ = (threshold_days : Int) * 86400 := by ring
  · rintro ⟨hstored, hstatus, h1, h2⟩
    refine ⟨⟨hstored, hstatus⟩, h1, ?_⟩
    calc r.expires_at - now ≤ (threshold_days : Int) * 86400 := h2
      _ = (threshold_days : Int) * 24 * 60 * 60 := by ring

/-- C3 witness: the concrete record `recW` (active, expiring in 1000
seconds) is selected by `expiring_within(30)` at time 0. -/
theorem c3_witness : recW ∈ get_expiring_certificates sW 30 0 := by
  exact (c3_expiring_within_spec sW 30 0 recW).mpr
    ⟨⟨"a", blobW, by decide, rfl, rfl⟩, rfl, by decide, by decide⟩

/-- C4 counterexample: renewing an id absent from the store is surfaced by
the RPC renew handler as an `internal` error (wrapping the not-found
message), not as a `not_found` status as the claim states. -/
theorem c4_counterexample :
    (grpc_renew_certificate noFail emptyState
        { certificate_id := "x", validity_days := 0 } 365 "n" 0 0).2 =
      .error (.internal ("Failed to renew certificate: " ++
        errorMessage (.CertificateNotFound "x"))) := by
  rfl

/-- C4 (amended): renewing a missing id fails with `CertificateNotFound`
and is surfaced by the RPC handler as `internal` (not `not_found`) with the
wrapped not-found message; renewing a non-active record fails with a
status-conflict `Certificate` error surfaced as `internal` with the
explanatory message; in both cases the store is unchanged, so no new
certificate is issued and the old record is untouched. -/
theorem c4_amended (fs : FailureSpec) (s : RedisState) (req : RenewCertificateRequestMsg)
    (defv : Nat) (newId : String) (n1 n2 : Int) :
    (lookupKV s.certs req.certificate_id = none →
      grpc_renew_certificate fs s req defv newId n1 n2 =
        (s, .error (.internal ("Failed to renew certificate: " ++
          errorMessage (.CertificateNotFound req.certificate_id))))) ∧
    (∀ sv : StoredValue, lookupKV s.certs req.certificate_id = some sv →
      sv.record.status ≠ "active" →
      grpc_renew_certificate fs s req defv newId n1 n2 =
        (s, .error (.internal ("Failed to renew certificate: " ++
          errorMessage (.Certificate
            ("Cannot renew certificate with status: " ++ sv.record.status)))))) := by
  constructor
  · intro h
    simp [grpc_renew_certificate, renew_certificate_missing _ _ _ _ _ _ _ _ h, errorMessage]
  · intro sv h hst
    simp [grpc_renew_certificate, renew_certificate_conflict _ _ _ _ _ _ _ _ sv h hst,
      errorMessage]

/-- C4 witness: the amended theorem at a concrete store holding only a
revoked record. -/
theorem c4_witness :
    (grpc_renew_certificate noFail emptyState
        { certificate_id := "x", validity_days := 0 } 365 "n" 0 0).1 = emptyState ∧
    lookupKV emptyState.certs "x" = none := by
  refine ⟨?_, rfl⟩
  rw [(c4_amended noFail emptyState { certificate_id := "x", validity_days := 0 }
    365 "n" 0 0).1 rfl]

/-- C5: status transitions are one-directional over engine-reachable
stores.  For every reachable state and every engine step, a record present
before and after either keeps its status or goes `active → revoked`; in
particular nothing moves `revoked` (or `expired`, which the engine never
produces) to any other status, and every status change is among the
transitions the claim allows. -/
theorem c5_status_transitions (s s' : RedisState) (hreach : Reachable s) (hstep : Step s s')
    (cid st st' : String) (hbefore : statusOf s cid = some st)
    (hafter : statusOf s' cid = some st') :
    st = st' ∨ (st = "active" ∧ st' = "revoked") := by
  have hok := statusesOk_reachable hreach
  cases hstep with
  | issue fs s request iid n1 n2 hfresh =>
    obtain ⟨sv0, hlook0, hst0⟩ := statusOf_eq_some hbefore
    unfold statusOf at hafter
    rcases issue_certificate_certs fs s request iid n1 n2 with hc | hc
    · rw [hc, hlook0] at hafter
      left
      have hv : sv0.record.status = st' := by simpa using hafter
      rw [← hst0, hv]
    · have hne : cid ≠ iid := by
        intro he
        rw [he, hfresh] at hlook0
        exact Option.noConfusion hlook0
      rw [hc, lookupKV_setKV_ne _ _ _ _ hne, hlook0] at hafter
      left
      have hv : sv0.record.status = st' := by simpa using hafter
      rw [← hst0, hv]
  | renew fs s rid vd defv newId n1 n2 hfresh =>
    refine renew_status_change fs s rid vd defv newId n1 n2 hfresh cid st st' ?_ ?_
    · unfold statusOf at hbefore
      exact hbefore
    · unfold statusOf at hafter
      exact hafter
  | revoke fs s rid reason =>
    obtain ⟨sv0, hlook0, hst0⟩ := statusOf_eq_some hbefore
    unfold statusOf at hafter
    cases hlook : lookupKV s.certs rid with
    | none =>
      rw [revoke_certificate_certs_missing fs s rid reason hlook, hlook0] at hafter
      left
      have hv : sv0.record.status = st' := by simpa using hafter
      rw [← hst0, hv]
    | some sv =>
      by_cases hcr : cid = rid
      · subst hcr
        rw [revoke_certificate_certs_found fs s cid reason sv hlook,
          lookupKV_setKV_self] at hafter
        have hst' : st' = "revoked" := by
          have hv : (revokedBlob sv).record.status = st' := by simpa using hafter
          rw [← hv]
          rfl
        have hsv : sv0 = sv := by
          rw [hlook0] at hlook
          exact Option.some.inj hlook
        rcases hok (cid, sv) (lookupKV_mem hlook) with ha | ha
        · right
          constructor
          · rw [← hst0, hsv]
            exact ha
          · exact hst'
        · left
          rw [← hst0, hsv, ha, hst']
      · rw [revoke_certificate_certs_found fs s rid reason sv hlook,
          lookupKV_setKV_ne _ _ _ _ hcr, hlook0] at hafter
        left
        have hv : sv0.record.status = st' := by simpa using hafter
        rw [← hst0, hv]
  | watcherRenew fs s rid defv newId n1 n2 hfresh =>
    refine renew_status_change fs s rid none defv newId n1 n2 hfresh cid st st' ?_ ?_
    · unfold statusOf at hbefore
      exact hbefore
    · unfold statusOf at hafter
      rw [watcher_renew_task_certs] at hafter
      exact hafter
  | health fs s =>
    unfold statusOf at hbefore hafter
    rw [check_certificate_health_certs] at hafter
    left
    rw [hbefore] at hafter
    exact Option.some.inj hafter
  | cleanup fs s days_old now =>
    unfold statusOf at hbefore hafter
    rw [cleanup_of_statusesOk fs s days_old now hok] at hafter
    dsimp only at hafter
    left
    rw [hbefore] at hafter
    exact Option.some.inj hafter

/-- C5 witness: the transition theorem applied to a concrete
reachable state (one issuance) followed by a revoke step, observing the
`active → revoked` change of id `a`. -/
theorem c5_witness :
    statusOf sIssueW "a" = some "active" ∧
    statusOf (revoke_certificate noFail sIssueW "a" none).1 "a" = some "revoked" ∧
    ("active" = "revoked" ∨ ("active" = "active" ∧ "revoked" = "revoked")) := by
  refine ⟨rfl, rfl, ?_⟩
  exact c5_status_transitions sIssueW (revoke_certificate noFail sIssueW "a" none).1
    (Reachable.step Reachable.init (Step.issue noFail emptyState reqW "a" 0 0 rfl))
    (Step.revoke noFail sIssueW "a" none) "a" "active" "revoked" rfl rfl

/-- C6 counterexample: after a successful `update_status` on an existing
record (stored with the one-year TTL), the blob carries no TTL at all —
the plain SET on line 89 of `src/redis_client.rs` discards it instead of
refreshing it to one year. -/
theorem c6_counterexample :
    (lookupKV (update_certificate_status sW "a" "revoked").1.certs "a").map
        (fun sv => sv.ttl) = some none ∧
    some (none : Option Nat) ≠ some (some oneYearTTL) := by
  refine ⟨rfl, ?_⟩
  decide

/-- C6 (amended): `put` attaches the one-year TTL, but `update_status`
rewrites an existing record with a plain SET, which discards the TTL:
after every successful `update_status(id, st)` on an existing record the
blob carries the new status and no TTL (rather than a refreshed one-year
TTL). -/
theorem c6_amended (s : RedisState) (cid st : String) (sv : StoredValue)
    (h : lookupKV s.certs cid = some sv) :
    (update_certificate_status s cid st).2 = .ok () ∧
    lookupKV (update_certificate_status s cid st).1.certs cid =
      some { record := { sv.record with status := st }, ttl := none } := by
  rw [update_certificate_status_found s cid st sv h]
  exact ⟨rfl, lookupKV_setKV_self _ _ _⟩

/-- C6 witness: the amended theorem at the concrete store `sW`. -/
theorem c6_witness :
    lookupKV sW.certs "a" = some blobW ∧
    lookupKV (update_certificate_status sW "a" "revoked").1.certs "a" =
      some { record := { recW with status := "revoked" }, ttl := none } := by
  exact ⟨rfl, (c6_amended sW "a" "revoked" blobW rfl).2⟩

/-- C7: `revoke` is total and idempotent with a functioning backend: for
every id — including ids never issued, where the status update is a silent
no-op — the call succeeds, and a second revoke leaves the persistent
certificate state (blobs and index; the fire-and-forget event channel is
not store state) exactly as after the first. -/
theorem c7_revoke_idempotent (s : RedisState) (cid : String) (reason : Option String) :
    (revoke_certificate noFail s cid reason).2 = .ok () ∧
    (revoke_certificate noFail (revoke_certificate noFail s cid reason).1 cid reason).2 =
      .ok () ∧
    certState (revoke_certificate noFail
        (revoke_certificate noFail s cid reason).1 cid reason).1 =
      certState (revoke_certificate noFail s cid reason).1 := by
  refine ⟨revoke_certificate_snd_noFail s cid reason,
    revoke_certificate_snd_noFail _ cid reason, ?_⟩
  cases hlook : lookupKV s.certs cid with
  | none =>
    have h1c := revoke_certificate_certs_missing noFail s cid reason hlook
    have hlook1 : lookupKV (revoke_certificate noFail s cid reason).1.certs cid = none := by
      rw [h1c]
      exact hlook
    have h2c := revoke_certificate_certs_missing noFail
      (revoke_certificate noFail s cid reason).1 cid reason hlook1
    unfold certState
    rw [h2c, revoke_certificate_index]
  | some sv =>
    have h1c := revoke_certificate_certs_found noFail s cid reason sv hlook
    have hlook1 : lookupKV (revoke_certificate noFail s cid reason).1.certs cid =
        some (revokedBlob sv) := by
      rw [h1c]
      exact lookupKV_setKV_self _ _ _
    have h2c := revoke_certificate_certs_found noFail
      (revoke_certificate noFail s cid reason).1 cid reason (revokedBlob sv) hlook1
    unfold certState
    rw [h2c, revokedBlob_idem, h1c, setKV_setKV, revoke_certificate_index]

theorem append_entry_by_text_ok {name name2 : List (String × String)} {key value : String}
    (h : append_entry_by_text name key value = .ok name2) :
    name2 = name ++ [(key, value)] := by
  unfold append_entry_by_text at h
  split at h
  · split at h
    · exact Except.noConfusion h
    · split at h
      · exact Except.noConfusion h
      · exact (Except.ok.inj h).symm
  · split at h
    · exact Except.noConfusion h
    · exact (Except.ok.inj h).symm

theorem appendOptionalEntry_ok {name name2 : List (String × String)} {key : String}
    {o : Option String} (h : appendOptionalEntry name key o = .ok name2) :
    name2 = name ++ suppliedEntries key o := by
  cases o with
  | none =>
    unfold appendOptionalEntry at h
    rw [← Except.ok.inj h]
    simp [suppliedEntries]
  | some v =>
    unfold appendOptionalEntry at h
    simpa [suppliedEntries] using append_entry_by_text_ok h

theorem appendOptionalEntry_empty_ne_ok (name : List (String × String)) (key : String)
    (name2 : List (String × String)) :
    appendOptionalEntry name key (some "") ≠ .ok name2 := by
  intro h
  simp only [appendOptionalEntry] at h
  by_cases hc : key = "C"
  · subst hc
    exact Except.noConfusion h
  · simp only [append_entry_by_text, if_neg hc] at h
    exact Except.noConfusion h

theorem mem_suppliedEntries (key k v : String) (o : Option String) :
    (k, v) ∈ suppliedEntries key o ↔ (k = key ∧ o = some v) := by
  cases o with
  | none => simp [suppliedEntries]
  | some a =>
    simp only [suppliedEntries, List.mem_singleton, Prod.mk.injEq, Option.some.injEq]
    constructor
    · rintro ⟨h1, h2⟩
      exact ⟨h1, h2.symm⟩
    · rintro ⟨h1, h2⟩
      exact ⟨h1, h2.symm⟩

/-- A successful `buildSubjectName` means every append in the chain
succeeded, in source order. -/
theorem buildSubjectName_ok_chain (request : CertificateRequest)
    (name : List (String × String)) (h : buildSubjectName request = .ok name) :
    ∃ name1 name2 name3 name4 name5,
      append_entry_by_text [] "CN" request.common_name = .ok name1 ∧
      appendOptionalEntry name1 "O" request.organization = .ok name2 ∧
      appendOptionalEntry name2 "OU" request.organizational_unit = .ok name3 ∧
      appendOptionalEntry name3 "C" request.country = .ok name4 ∧
      appendOptionalEntry name4 "ST" request.state = .ok name5 ∧
      appendOptionalEntry name5 "L" request.locality = .ok name := by
  unfold buildSubjectName at h
  cases h1 : append_entry_by_text [] "CN" request.common_name with
  | error e => simp [h1] at h
  | ok name1 =>
    simp only [h1] at h
    cases h2 : appendOptionalEntry name1 "O" request.organization with
    | error e => simp [h2] at h
    | ok name2 =>
      simp only [h2] at h
      cases h3 : appendOptionalEntry name2 "OU" request.organizational_unit with
      | error e => simp [h3] at h
      | ok name3 =>
        simp only [h3] at h
        cases h4 : appendOptionalEntry name3 "C" request.country with
        | error e => simp [h4] at h
        | ok name4 =>
          simp only [h4] at h
          cases h5 : appendOptionalEntry name4 "ST" request.state with
          | error e => simp [h5] at h
          | ok name5 =>
            simp only [h5] at h
            cases h6 : appendOptionalEntry name5 "L" request.locality with
            | error e => simp [h6] at h
            | ok name6 =>
              simp only [h6] at h
              exact ⟨name1, name2, name3, name4, name5, rfl, h2, h3, h4, h5,
                (Except.ok.inj h) ▸ h6⟩

/-- The shape of a successfully built subject name: CN first, then exactly
the supplied components in order O, OU, C, ST, L. -/
theorem buildSubjectName_ok_shape (request : CertificateRequest)
    (name : List (String × String)) (h : buildSubjectName request = .ok name) :
    name = ("CN", request.common_name) ::
      (suppliedEntries "O" request.organization ++
        suppliedEntries "OU" request.organizational_unit ++
        suppliedEntries "C" request.country ++
        suppliedEntries "ST" request.state ++
        suppliedEntries "L" request.locality) := by
  obtain ⟨n1, n2, n3, n4, n5, h1, h2, h3, h4, h5, h6⟩ := buildSubjectName_ok_chain request name h
  have e1 := append_entry_by_text_ok h1
  have e2 := appendOptionalEntry_ok h2
  have e3 := appendOptionalEntry_ok h3
  have e4 := appendOptionalEntry_ok h4
  have e5 := appendOptionalEntry_ok h5
  have e6 := appendOptionalEntry_ok h6
  subst e1 e2 e3 e4 e5 e6
  simp [List.append_assoc]

/-- C8 counterexample: at a request supplying an empty O component, the
subject-name construction does not skip the component and continue — the
`append_entry_by_text` call for O fails (OpenSSL rejects the empty value
as too short) and the error aborts the build, so no subject name is
produced at all and the issuance errors. -/
theorem c8_counterexample :
    reqEmptyO.organization = some "" ∧
    buildSubjectName reqEmptyO = .error (.OpenSsl "string too short") := by
  exact ⟨rfl, rfl⟩

/-- C8 (amended): the builder passes CN and each supplied component — O,
OU, C, ST, L exactly when `Some`, regardless of emptiness — to
`append_entry_by_text`, and OpenSSL rejects values outside its DN size
constraints (empty values for every component, country codes of length
other than 2).  A supplied but empty component is therefore not silently
omitted: it aborts the subject-name construction (and with it the
issuance) with a `?`-propagated error.  When the build succeeds, the name
is CN followed by exactly the supplied components. -/
theorem c8_amended (request : CertificateRequest) :
    (∀ name, buildSubjectName request = .ok name →
      (("CN", request.common_name) ∈ name ∧
        (∀ v, ("O", v) ∈ name ↔ request.organization = some v) ∧
        (∀ v, ("OU", v) ∈ name ↔ request.organizational_unit = some v) ∧
        (∀ v, ("C", v) ∈ name ↔ request.country = some v) ∧
        (∀ v, ("ST", v) ∈ name ↔ request.state = some v) ∧
        (∀ v, ("L", v) ∈ name ↔ request.locality = some v))) ∧
    (request.common_name.length ≠ 0 → request.organization = some "" →
      buildSubjectName request = .error (.OpenSsl "string too short")) ∧
    ((request.organization = some "" ∨ request.organizational_unit = some "" ∨
        request.country = some "" ∨ request.state = some "" ∨
        request.locality = some "") →
      ∀ name, buildSubjectName request ≠ .ok name) := by
  refine ⟨?_, ?_, ?_⟩
  · intro name h
    rw [buildSubjectName_ok_shape request name h]
    refine ⟨by simp, ?_, ?_, ?_, ?_, ?_⟩ <;> intro v <;>
      simp [mem_suppliedEntries, Prod.ext_iff]
  · intro hcn horg
    have h1 : append_entry_by_text [] "CN" request.common_name =
        .ok [("CN", request.common_name)] := by
      unfold append_entry_by_text
      rw [if_neg (by decide : ¬("CN" = "C")), if_neg hcn]
      rfl
    have h2 : appendOptionalEntry [("CN", request.common_name)] "O" request.organization =
        .error (.OpenSsl "string too short") := by
      rw [horg]
      rfl
    unfold buildSubjectName
    simp only [h1, h2]
  · intro hdisj name h
    obtain ⟨n1, n2, n3, n4, n5, h1, h2, h3, h4, h5, h6⟩ :=
      buildSubjectName_ok_chain request name h
    rcases hdisj with ho | ho | ho | ho | ho
    · rw [ho] at h2
      exact appendOptionalEntry_empty_ne_ok _ _ _ h2
    · rw [ho] at h3
      exact appendOptionalEntry_empty_ne_ok _ _ _ h3
    · rw [ho] at h4
      exact appendOptionalEntry_empty_ne_ok _ _ _ h4
    · rw [ho] at h5
      exact appendOptionalEntry_empty_ne_ok _ _ _ h5
    · rw [ho] at h6
      exact appendOptionalEntry_empty_ne_ok _ _ _ h6

/-- C8 witness: the amended theorem at concrete requests — `reqW` builds
successfully with exactly CN and the supplied O component, and `reqEmptyO`
(empty O supplied) aborts with the OpenSSL rejection. -/
theorem c8_witness :
    buildSubjectName reqW = .ok [("CN", "svc.test"), ("O", "Acme")] ∧
    ("O", "Acme") ∈ [("CN", "svc.test"), ("O", "Acme")] ∧
    reqEmptyO.common_name.length ≠ 0 ∧ reqEmptyO.organization = some "" ∧
    buildSubjectName reqEmptyO = .error (.OpenSsl "string too short") := by
  refine ⟨rfl, ?_, by decide, rfl, ?_⟩
  · exact (((c8_amended reqW).1 [("CN", "svc.test"), ("O", "Acme")] rfl).2.1 "Acme").mpr rfl
  · exact (c8_amended reqEmptyO).2.1 (by decide) rfl

/-- C9 counterexample: `expires_at` is computed from the first clock sample
(line 238 of `src/certificate.rs`) and `issued_at` from a second, later
sample (line 246).  With `validity_days = 0` and the clock advancing one
second between the two samples, the stored record — also returned by
`get` — has `issued_at = 1 > 0 = expires_at`. -/
theorem c9_counterexample :
    get_certificate (issue_certificate noFail emptyState reqZeroDays "a" 0 1).1 "a" =
      some (mkCertRecord reqZeroDays "a" 0 1) ∧
    (mkCertRecord reqZeroDays "a" 0 1).issued_at = 1 ∧
    (mkCertRecord reqZeroDays "a" 0 1).expires_at = 0 ∧
    ¬((mkCertRecord reqZeroDays "a" 0 1).issued_at ≤
        (mkCertRecord reqZeroDays "a" 0 1).expires_at) := by
  refine ⟨rfl, rfl, ?_, ?_⟩
  · decide
  · decide

/-- C9 (amended): provided the second clock sample of each issuance does
not run past the computed expiry — `now2 ≤ now1 + validity_days·86400`,
which holds in particular whenever both `Utc::now()` calls land in the same
second (and can only fail in practice when `validity_days = 0`) — every
stored record satisfies `issued_at ≤ expires_at`: records returned by `get`
satisfy it, issuance and renewal create only such records, and status
updates, revocation and cleanup preserve it. -/
theorem c9_amended :
    (∀ (s : RedisState) (cid : String) (r : CertificateRecord), RecordsOk s →
      get_certificate s cid = some r → r.issued_at ≤ r.expires_at) ∧
    (∀ (fs : FailureSpec) (s : RedisState) (request : CertificateRequest) (cid : String)
        (n1 n2 : Int), RecordsOk s →
      n2 ≤ n1 + (request.validity_days : Int) * 24 * 60 * 60 →
      RecordsOk (issue_certificate fs s request cid n1 n2).1) ∧
    (∀ (s : RedisState) (cid st : String), RecordsOk s →
      RecordsOk (update_certificate_status s cid st).1) ∧
    (∀ (fs : FailureSpec) (s : RedisState) (rid : String) (vd : Option Nat) (defv : Nat)
        (newId : String) (n1 n2 : Int), RecordsOk s → lookupKV s.certs newId = none →
      n2 ≤ n1 + ((vd.getD defv : Nat) : Int) * 24 * 60 * 60 →
      RecordsOk (renew_certificate fs s rid vd defv newId n1 n2).1) ∧
    (∀ (fs : FailureSpec) (s : RedisState) (cid : String) (reason : Option String),
      RecordsOk s → RecordsOk (revoke_certificate fs s cid reason).1) ∧
    (∀ (fs : FailureSpec) (s : RedisState) (days_old : Nat) (now : Int), RecordsOk s →
      RecordsOk (cleanup_expired_certificates fs s days_old now).1) := by
  refine ⟨?_, ?_, ?_, ?_, ?_, ?_⟩
  · intro s cid r hok hget
    cases hlook : lookupKV s.certs cid with
    | none => simp [get_certificate, hlook] at hget
    | some sv =>
      have hr : sv.record = r := by simpa [get_certificate, hlook] using hget
      rw [← hr]
      exact hok (cid, sv) (lookupKV_mem hlook)
  · intro fs s request cid n1 n2 hok hclock
    exact recordsOk_issue fs s request cid n1 n2 hok hclock
  · intro s cid st hok
    exact recordsOk_update s cid st hok
  · intro fs s rid vd defv newId n1 n2 hok hfresh hclock
    exact recordsOk_renew fs s rid vd defv newId n1 n2 hfresh hok hclock
  · intro fs s cid reason hok
    exact recordsOk_revoke fs s cid reason hok
  · intro fs s days_old now hok
    exact recordsOk_cleanup fs s days_old now hok

/-- C9 witness: the amended theorem at a concrete issuance into the empty
store with both clock samples at second 0. -/
theorem c9_witness :
    RecordsOk emptyState ∧ ((0 : Int) ≤ 0 + ((30 : Nat) : Int) * 24 * 60 * 60) ∧
    RecordsOk (issue_certificate noFail emptyState reqW "a" 0 0).1 := by
  refine ⟨?_, by decide, ?_⟩
  · intro p hp
    exact absurd hp (by simp [emptyState])
  · exact c9_amended.2.1 noFail emptyState reqW "a" 0 0
      (fun p hp => absurd hp (by simp [emptyState])) (by decide)

theorem filterMap_filter_ne (g : String → Option CertificateRecord) (l : List String)
    (cid : String) (h : g cid = none) :
    l.filterMap g = (l.filter (fun j => j != cid)).filterMap g := by
  induction l with
  | nil => rfl
  | cons a t ih =>
    by_cases ha : a = cid
    · subst ha
      simp [List.filterMap_cons, List.filter_cons, h, ih]
    · simp [List.filterMap_cons, List.filter_cons, ha, ih]

/-- C10: `list` tolerates dangling index entries — for an id in `certs:all`
whose `cert:<id>` key is absent, `list` (with any filter) silently skips it:
the result is the same as if the id were not in the index at all, and the
expiring-certificate selection is likewise unaffected.  (The skip is the
`if let Some` on line 108 of `src/redis_client.rs`; neither operation can
fail on such an entry in this model.) -/
theorem c10_dangling_index (s : RedisState) (status_filter : Option String) (cid : String)
    (threshold_days : Nat) (now : Int) (_hmem : cid ∈ s.index)
    (hdangling : lookupKV s.certs cid = none) :
    list_certificates s status_filter =
      list_certificates { s with index := s.index.filter (fun j => j != cid) }
        status_filter ∧
    get_expiring_certificates s threshold_days now =
      get_expiring_certificates { s with index := s.index.filter (fun j => j != cid) }
        threshold_days now := by
  have hlist : ∀ f : Option String, list_certificates s f =
      list_certificates { s with index := s.index.filter (fun j => j != cid) } f := by
    intro f
    unfold list_certificates
    exact filterMap_filter_ne _ s.index cid (by rw [hdangling])
  exact ⟨hlist status_filter, by unfold get_expiring_certificates; rw [hlist (some "active")]⟩

/-- C10 witness: the theorem at the concrete dangling store. -/
theorem c10_witness :
    "ghost" ∈ sDangling.index ∧ lookupKV sDangling.certs "ghost" = none ∧
    list_certificates sDangling none =
      list_certificates
        { sDangling with index := sDangling.index.filter (fun j => j != "ghost") } none := by
  exact ⟨by decide, rfl,
    (c10_dangling_index sDangling none "ghost" 30 0 (by decide) rfl).1⟩
